import Mathlib

/-!
Verification of the authentication/session core of the FastAPI boilerplate
repository: password authentication, JWT issuance, session-cache
synchronization, and the request-gating middleware.

The Python sources are shallowly embedded: each Lean definition mirrors one
function of the repository (file and symbol named in its doc comment).
Machine-level details that cannot influence the verified properties are
modelled as follows:
  - JWT strings are represented symbolically by `TokenRepr`: a well-formed
    signed token carries its claims, signing secret and algorithm; any other
    string is `garbage`.  `jwt_decode` mirrors the observable contract of
    `jose.jwt.decode` (signature checked before expiry; wrong secret or
    algorithm and malformed strings raise `JWTError`; an expired exp claim
    raises `ExpiredSignatureError`).
  - Redis is a list of (key, value, TTL) triples; `SET` overwrites, `GET`
    reads, `DELETE` returns the number of removed keys.
  - the `str({...})` serialization written to the cache is kept structured
    (`CacheUserValue`); `str` is injective on these dictionaries and
    `ast.literal_eval` inverts it, so equality of serialized strings is
    equality of the structured values.
-/

/-- Claims payload of a signed JWT, per `app/auth/util/jwt.py` (shape also
fixed by spec section 6 and `test/helpers/token_helper.py`): user identity
fields plus `iat` and `exp` unix timestamps.  Reading a missing claim with
`payload.get` yields `None`, hence the `Option` fields. -/
structure SignedClaims where
  user_id : Int
  login_id : Option String
  user_name : Option String
  user_type : Option Int
  iat : Nat
  exp : Nat
  deriving DecidableEq, Repr

/-- Symbolic JWT string: either a well-formed token signed with a given
secret and algorithm, or any other (non-JWT) string. -/
inductive TokenRepr where
  | signed (claims : SignedClaims) (secret : String) (alg : String)
  | garbage (raw : String)
  deriving DecidableEq, Repr

/-- Python truthiness of the token string.  A serialized JWT is a nonempty
string, hence truthy; a raw string is truthy iff nonempty. -/
def TokenRepr.truthy : TokenRepr → Bool
  | .signed _ _ _ => true
  | .garbage raw => raw ≠ ""

/-- Outcome of `jose.jwt.decode`. -/
inductive DecodeResult where
  | ok (claims : SignedClaims)
  | expiredSignature
  | jwtError
  deriving DecidableEq, Repr

/-- Contract of `jose.jwt.decode(token, secret, algorithms)`: the signature is
verified first (wrong secret, wrong algorithm, or a malformed string raise
`JWTError`), then the `exp` claim is compared with the current time
(`ExpiredSignatureError` when past). -/
def jwt_decode (now : Nat) (token : TokenRepr) (secret alg : String) : DecodeResult :=
  match token with
  | .signed claims s a =>
      if s = secret ∧ a = alg then
        if claims.exp ≤ now then .expiredSignature else .ok claims
      else .jwtError
  | .garbage _ => .jwtError

/-- Configuration keys used by the core (the `config` module is not under
src/; the field names are the keys the sources read). -/
structure Config where
  JWT_ACCESS_SECRET_KEY : String
  JWT_REFRESH_SECRET_KEY : String
  JWT_ALGORITHM : String
  JWT_ACCESS_TOKEN_EXPIRE_MINUTES : Nat
  JWT_REFRESH_TOKEN_EXPIRE_MINUTES : Nat
  REDIS_EXPIRE_TIME : Nat
  deriving DecidableEq, Repr

/-- Modelled from the spec: the `config` module is not under src/.  Spec
sections 3/4.2/6 fix distinct access and refresh secrets, one shared
algorithm, a 15 minute access TTL and a 3000 minute refresh TTL (the same
defaults appear in `test/helpers/token_helper.py` and `test/conftest.py`). -/
def spec_config : Config :=
  ⟨"access-secret-key", "refresh-secret-key", "HS256", 15, 3000, 3600⟩

/-- Domain entity of `app/auth/domain/user_entity.py`: a dataclass whose nine
fields all default to `None`. -/
structure UserEntity where
  user_id : Option Int
  login_id : Option String
  password : Option String
  user_name : Option String
  email : Option String
  user_type : Option Int
  token_type : Option String
  access_token : Option TokenRepr
  refresh_token : Option TokenRepr
  deriving DecidableEq, Repr

/-- Entity with every field `None` (the dataclass defaults). -/
def UserEntity.empty : UserEntity :=
  ⟨none, none, none, none, none, none, none, none, none⟩

/-- Dictionary serialized by the session-cache writers: the
`{user_id, login_id, user_name, user_type, email, access_token,
refresh_token}` mapping passed to `str(...)`. -/
structure CacheUserValue where
  user_id : Option Int
  login_id : Option String
  user_name : Option String
  user_type : Option Int
  email : Option String
  access_token : Option TokenRepr
  refresh_token : Option TokenRepr
  deriving DecidableEq, Repr

/-- Rendering of an optional string inside a Python f-string: `None` prints
as the four characters "None". -/
def pyStr : Option String → String
  | none => "None"
  | some s => s

/-- Cache dictionary built from a user entity (shared body of
`CacheService.save_user_cache` and `UserUseCase.set_user_in_redis`). -/
def cache_value_of (user : UserEntity) : CacheUserValue :=
  ⟨user.user_id, user.login_id, user.user_name, user.user_type,
    user.email, user.access_token, user.refresh_token⟩

/-- Redis contents: (key, value, remaining TTL in seconds) triples. -/
abbrev RedisState := List (String × CacheUserValue × Nat)

/-- Redis `SET name value EX ttl`: overwrites any entry under the key. -/
def redis_set (st : RedisState) (key : String) (value : CacheUserValue) (ex : Nat) :
    RedisState :=
  (key, value, ex) :: st.filter (fun e => e.1 ≠ key)

/-- Redis `GET`. -/
def redis_get (st : RedisState) (key : String) : Option CacheUserValue :=
  (st.find? (fun e => e.1 = key)).map (fun e => e.2.1)

/-- Redis `DELETE`: removes the key and returns how many keys were removed. -/
def redis_delete (st : RedisState) (key : String) : RedisState × Nat :=
  (st.filter (fun e => e.1 ≠ key), (st.filter (fun e => e.1 = key)).length)

/-- Function `CacheService.save_user_cache` of
`app/auth/services/cache_service.py`: serializes the user dictionary and
stores it under `cache_user_info_<login_id>` with TTL `REDIS_EXPIRE_TIME`. -/
def CacheService.save_user_cache (cfg : Config) (st : RedisState) (user : UserEntity) :
    RedisState :=
  redis_set st ("cache_user_info_" ++ pyStr user.login_id) (cache_value_of user)
    cfg.REDIS_EXPIRE_TIME

/-- Function `CacheService.get_user_cache` of
`app/auth/services/cache_service.py`: reads `cache_user_info_<login_id>`
(`None` when absent; the bytes/str branches both return the string). -/
def CacheService.get_user_cache (st : RedisState) (login_id : String) :
    Option CacheUserValue :=
  redis_get st ("cache_user_info_" ++ login_id)

/-- Function `CacheService.delete_user_cache` of
`app/auth/services/cache_service.py`: deletes `cache_user_info_<login_id>`
and reports whether a key was removed (`result > 0`). -/
def CacheService.delete_user_cache (st : RedisState) (login_id : String) :
    RedisState × Bool :=
  let r := redis_delete st ("cache_user_info_" ++ login_id)
  (r.1, 0 < r.2)

/-- Function `CacheService.update_user_cache` of
`app/auth/services/cache_service.py`: delegates to `save_user_cache`
(Redis `SET` overwrites existing keys). -/
def CacheService.update_user_cache (cfg : Config) (st : RedisState) (user : UserEntity) :
    RedisState :=
  CacheService.save_user_cache cfg st user

/-- Function `get_user_cache` of `infrastructure/db/redis.py`, the lookup the
middleware calls (middleware.py line 20 imports it under the old typo name
`get_user_cahce`): reads `cache_user_info_<login_id>` and returns `None`
when the key is absent. -/
def get_user_cache (st : RedisState) (login_id : String) : Option CacheUserValue :=
  redis_get st ("cache_user_info_" ++ login_id)

/-- Function `UserUseCase.set_user_in_redis` of
`app/auth/usecase/user_usecase.py` (legacy login path): serializes the same
dictionary but stores it under the typo key `cahce_user_info_<login_id>`. -/
def UserUseCase.set_user_in_redis (cfg : Config) (st : RedisState) (user : UserEntity) :
    RedisState :=
  redis_set st ("cahce_user_info_" ++ pyStr user.login_id) (cache_value_of user)
    cfg.REDIS_EXPIRE_TIME

/-- Dataclass `LogoutResult` of `app/auth/usecases/dto.py`. -/
structure LogoutResult where
  success : Bool
  message : String
  deriving DecidableEq, Repr

/-- Function `LogoutUseCase.execute` of
`app/auth/usecases/logout_usecase.py`: deletes the user cache and always
returns `success=True`, with the message recording whether a key existed. -/
def LogoutUseCase.execute (st : RedisState) (login_id : String) :
    RedisState × LogoutResult :=
  let d := CacheService.delete_user_cache st login_id
  (d.1, ⟨true, if d.2 then "Successfully logged out" else "User was not cached"⟩)

/-- Outcome of `AuthService.authenticate`
(`app/auth/services/authentication_service.py`): the returned entity or the
`APIException` class raised. -/
inductive AuthOutcome where
  | ok (user : UserEntity)
  | notFoundUser
  | validationError (msg : String)
  | badPassword
  deriving DecidableEq, Repr

/-- Function `AuthService.authenticate` of
`app/auth/services/authentication_service.py`.  `find_by_login_id` stands
for the repository lookup (`None` when no row matches); `verify` models
`CryptContext.verify` (`some b` when it returns `b`, `none` when it raises —
`__verify_password` converts a raise into `BadPassword`).  Steps: missing
user raises `NotFoundUserEx`; a falsy stored hash (`None` or "") raises
`ValidationError`; a failed verification raises `NotFoundUserEx`; then the
password field is cleared and the entity returned (after the defensive
`login_id is None` guard). -/
def AuthService.authenticate (find_by_login_id : String → Option UserEntity)
    (verify : String → String → Option Bool)
    (user_id user_passwd : String) : AuthOutcome :=
  match find_by_login_id user_id with
  | none => .notFoundUser
  | some user_entity =>
    match user_entity.password with
    | none => .validationError "Password is required"
    | some hashed =>
      if hashed = "" then .validationError "Password is required"
      else
        match verify user_passwd hashed with
        | none => .badPassword
        | some matches_ =>
          if matches_ then
            let cleared := { user_entity with password := none }
            if cleared.login_id = none then .validationError "Login ID is required"
            else .ok cleared
          else .notFoundUser

/-- Dataclass `RegisterUserCommand` of `app/auth/usecases/dto.py`. -/
structure RegisterUserCommand where
  login_id : String
  user_name : String
  password : String
  email : String
  user_type : Int
  deriving DecidableEq, Repr

/-- Row of the `UserInfo` table as `Repository._to_entity` reads it. -/
structure UserRecord where
  user_id : Int
  login_id : String
  user_name : String
  password : String
  email : String
  user_type : Int
  deriving DecidableEq, Repr

/-- Relational store contents. -/
abbrev UserTable := List UserRecord

/-- Function `Repository.exists_by_login_id` of
`app/auth/repository/user_repository.py`. -/
def Repository.exists_by_login_id (db : UserTable) (login_id : String) : Bool :=
  db.any (fun r => r.login_id = login_id)

/-- Function `Repository.exists_by_email` of
`app/auth/repository/user_repository.py`. -/
def Repository.exists_by_email (db : UserTable) (email : String) : Bool :=
  db.any (fun r => r.email = email)

/-- Dictionary passed to `Repository.save`. -/
structure NewUserData where
  login_id : String
  user_name : String
  password : String
  email : String
  user_type : Int
  deriving DecidableEq, Repr

/-- Outcome of `Repository.save`. -/
inductive SaveOutcome where
  | ok (user_id : Int) (db : UserTable)
  | internalQueryError
  deriving DecidableEq, Repr

/-- Function `Repository.save` of `app/auth/repository/user_repository.py`.
Modelled from the spec for the store constraint: the `UserInfo` schema module
(`infrastructure/db/schema/user.py`) is not under src/; per spec sections 3
and 4.5 the store enforces uniqueness of `login_id` and `email`, so a
violating insert raises an integrity error.  `Repository.save` itself
catches every exception and raises `InternalQuerryEx`; otherwise the store
assigns and returns the new `user_id` (`next_user_id` here). -/
def Repository.save (db : UserTable) (next_user_id : Int) (data : NewUserData) :
    SaveOutcome :=
  if Repository.exists_by_login_id db data.login_id
      || Repository.exists_by_email db data.email then
    .internalQueryError
  else
    .ok next_user_id
      (⟨next_user_id, data.login_id, data.user_name, data.password, data.email,
        data.user_type⟩ :: db)

/-- Outcome of `RegisterUserUseCase.execute`: the result dataclass or the
`APIException` class raised (`DuplicateUserEx` carries its `user_id`
message argument). -/
inductive RegisterOutcome where
  | ok (user_id : Int) (login_id : String) (db : UserTable)
  | duplicateUser (user_id : String)
  | internalQueryError
  deriving DecidableEq, Repr

/-- Function `RegisterUserUseCase.execute` of
`app/auth/usecases/register_user_usecase.py`.  `hash` models
`CryptContext.hash` (bcrypt, external library).  `db_at_check` is the table
observed by the two existence pre-checks and `db_at_insert` the table at the
insert; they differ exactly when a concurrent registration commits between
the checks and the insert (spec section 4.5 concurrency note). -/
def RegisterUserUseCase.execute (hash : String → String)
    (db_at_check db_at_insert : UserTable) (next_user_id : Int)
    (command : RegisterUserCommand) : RegisterOutcome :=
  if Repository.exists_by_login_id db_at_check command.login_id then
    .duplicateUser command.login_id
  else if Repository.exists_by_email db_at_check command.email then
    .duplicateUser command.email
  else
    match Repository.save db_at_insert next_user_id
        ⟨command.login_id, command.user_name, hash command.password,
          command.email, command.user_type⟩ with
    | .ok user_id db => .ok user_id command.login_id db
    | .internalQueryError => .internalQueryError

/-- Function `create_access_token` of `app/auth/util/jwt.py`.  Modelled from
the spec: that module is not under src/.  Per spec sections 4.2/4.4/6 (and
the in-src replica `test/helpers/token_helper.py`) it signs the claims
`{user_id, login_id, user_name, user_type, exp, iat}` with the given secret
and algorithm, where `iat` is the current time and `exp` lies `expire`
minutes later. -/
def create_access_token (now : Nat) (jwt_secret_key jwt_algorithm : String)
    (user_id : Int) (login_id user_name : Option String) (user_type : Option Int)
    (expire : Nat) : TokenRepr :=
  .signed ⟨user_id, login_id, user_name, user_type, now, now + expire * 60⟩
    jwt_secret_key jwt_algorithm

/-- Function `TokenService.get_token` of
`app/auth/services/token_service.py`, on the `UserEntity` branch of its
`UserEntity | dict` parameter (every src caller passes an entity; the dict
branch cannot finish anyway, since the final attribute assignments raise on
a dict).  `request.state.user` becomes `asdict(user_entity)`, so the
`"user_type" in ...` key test is True on this branch and `int(...)` is
applied to both `user_id` and `user_type`; `int(None)` raises `TypeError`
(modelled as `none`).  Both tokens are built by `create_access_token` from
the same user fields; only the secret and the expire minutes differ. -/
def TokenService.get_token (cfg : Config) (now : Nat) (user_entity : UserEntity) :
    Option UserEntity :=
  match user_entity.user_id with
  | none => none
  | some user_id =>
    match user_entity.user_type with
    | none => none
    | some user_type =>
      let access_token := create_access_token now cfg.JWT_ACCESS_SECRET_KEY
        cfg.JWT_ALGORITHM user_id user_entity.login_id user_entity.user_name
        (some user_type) cfg.JWT_ACCESS_TOKEN_EXPIRE_MINUTES
      let refresh_token := create_access_token now cfg.JWT_REFRESH_SECRET_KEY
        cfg.JWT_ALGORITHM user_id user_entity.login_id user_entity.user_name
        (some user_type) cfg.JWT_REFRESH_TOKEN_EXPIRE_MINUTES
      some { user_entity with
              access_token := some access_token,
              refresh_token := some refresh_token,
              token_type := some "bearer",
              user_id := some user_id }

/-- Exceptions that can escape the token-validation block of
`dispatch_middlewares` (middleware.py).  The first three are `APIException`
subclasses from errors.py; `jwtError` is the `jose` error raised by
`jwt.decode` on a malformed token, a wrong secret or a wrong algorithm;
`valueError` is the `ValueError` raised by `ast.literal_eval(None)`. -/
inductive PyException where
  | notAuthorization
  | expireJwtToken
  | notFoundUserEx
  | jwtError
  | valueError
  deriving DecidableEq, Repr

/-- Error envelope observable in the JSON error response of the middleware:
`status_code` and `code` of the `APIException` it ends up with. -/
structure ApiError where
  status_code : Nat
  code : String
  deriving DecidableEq, Repr

/-- Class `NotAuthorization` of errors.py: 401, code NOT_AUTHORIZATION. -/
def NotAuthorization : ApiError := ⟨401, "4010001"⟩

/-- Class `ExpireJwtToken` of errors.py: 401, code EXPIRE_JWT_TOKEN. -/
def ExpireJwtToken : ApiError := ⟨401, "4010002"⟩

/-- Class `NotFoundUserEx` of errors.py: 401, code NOT_FOUND_USER. -/
def NotFoundUserEx : ApiError := ⟨401, "4010003"⟩

/-- Class `InvalidJwtToken` of errors.py: 401, code INVALID_JWT_TOKEN.
Defined in errors.py but raised nowhere in src/. -/
def InvalidJwtToken : ApiError := ⟨401, "4010006"⟩

/-- Bare `APIException` of errors.py: its constructor defaults are
`status_code=500`, `code="0000"`. -/
def APIException : ApiError := ⟨500, "0000"⟩

/-- Function `exception_handler` of middleware.py: a
`sqlalchemy.exc.OperationalError` becomes `InternalSqlEx` (not reachable
here), any other non-`APIException` is wrapped as a bare `APIException`
(status 500, code "0000"), and an `APIException` keeps its own status and
code. -/
def exception_handler : PyException → ApiError
  | .notAuthorization => NotAuthorization
  | .expireJwtToken => ExpireJwtToken
  | .notFoundUserEx => NotFoundUserEx
  | .jwtError => APIException
  | .valueError => APIException

/-- Anchored match of one literal against the start of a character list
(helper for the regex model below). -/
def starts_with_chars : List Char → List Char → Bool
  | _, [] => true
  | [], _ :: _ => false
  | c :: cs, d :: ds => c = d && starts_with_chars cs ds

/-- Function `url_pattern_check` of middleware.py, applied to the one pattern
the middleware uses: `re.match("^(/docs|/redoc|/api/v1/auth)", path)` is an
anchored alternation of literals, true iff one of them starts the path. -/
def url_pattern_check (path : String) : Bool :=
  starts_with_chars path.data "/docs".data
    || starts_with_chars path.data "/redoc".data
    || starts_with_chars path.data "/api/v1/auth".data

/-- Inbound request as the middleware reads it: URL path, optional
`Authorization` header, and the two token cookies. -/
structure RequestData where
  path : String
  authorization : Option TokenRepr
  access_token_cookie : Option TokenRepr
  refresh_token_cookie : Option TokenRepr
  deriving DecidableEq, Repr

/-- Observable outcome of `dispatch_middlewares` for one request:
`bypass` is the early `call_next` return for public routes; `authenticated`
is the `call_next` after token validation, carrying the cache entry that
`ast.literal_eval` left in `request.state.user`; `rejected` is the JSON
error response produced from `exception_handler`. -/
inductive DispatchResult where
  | bypass
  | authenticated (user : CacheUserValue)
  | rejected (error : ApiError)
  deriving DecidableEq, Repr

/-- Token-validation tail of `dispatch_middlewares` (middleware.py lines
61-94), reached by every non-public path and by the refresh-token path.
The access-token candidate is the `Authorization` header, else the
`access_token` cookie, else `None`; a falsy candidate raises
`NotAuthorization`.  The candidate is decoded against
`JWT_ACCESS_SECRET_KEY`; the inner `except` turns only
`ExpiredSignatureError` into `ExpireJwtToken`, a `jose` `JWTError`
propagates unclassified.  On a decoded payload, a missing `login_id` claim
raises `NotAuthorization`; then
`request.state.user = ast.literal_eval(get_user_cahce(...))` runs BEFORE
the `if not user_info` check, so a cache miss raises `ValueError` inside
`literal_eval(None)` and the `NotFoundUserEx` branch is unreachable.  On a
cache hit the stored string is a serialized user dictionary: `literal_eval`
succeeds and the nonempty string is truthy, so the request is passed
through with that entry as `request.state.user`. -/
def token_validation (cfg : Config) (now : Nat) (redis : RedisState)
    (request : RequestData) : DispatchResult :=
  let access_token : Option TokenRepr :=
    match request.authorization with
    | some a => some a
    | none => request.access_token_cookie
  let outcome : Except PyException CacheUserValue :=
    match access_token with
    | some tok =>
      if tok.truthy then
        match jwt_decode now tok cfg.JWT_ACCESS_SECRET_KEY cfg.JWT_ALGORITHM with
        | .ok payload =>
          match payload.login_id with
          | none => .error .notAuthorization
          | some login_id =>
            match get_user_cache redis login_id with
            | none => .error .valueError
            | some user_info => .ok user_info
        | .expiredSignature => .error .expireJwtToken
        | .jwtError => .error .jwtError
      else .error .notAuthorization
    | none => .error .notAuthorization
  match outcome with
  | .ok user_info => .authenticated user_info
  | .error e => .rejected (exception_handler e)

/-- Function `dispatch_middlewares` of middleware.py.  The refresh-token
path hits the `pass` branch, which skips only the public early return and
falls THROUGH to the token validation; the other `/api/v1/auth` routes,
`/docs`, `/redoc`, `/`, and `/openapi.json` return `call_next` without any
token check; every remaining path goes through the token validation. -/
def dispatch_middlewares (cfg : Config) (now : Nat) (redis : RedisState)
    (request : RequestData) : DispatchResult :=
  if request.path = "/api/v1/auth/refresh_token" then
    token_validation cfg now redis request
  else if url_pattern_check request.path || request.path = "/"
      || request.path = "/openapi.json" then
    .bypass
  else
    token_validation cfg now redis request

/-! Concrete fixtures used by the closed evaluation theorems. -/

/-- Registered user "alice" as the authentication flow sees her after the
password has been cleared. -/
def alice_entity : UserEntity :=
  ⟨some 1, some "alice", none, some "Alice", some "a@x.com", some 1, none, none, none⟩

/-- Row of "alice" as the repository returns it (stored bcrypt hash intact). -/
def alice_with_password : UserEntity :=
  ⟨some 1, some "alice", some "bcrypt-hash", some "Alice", some "a@x.com", some 1,
    none, none, none⟩

/-- Unexpired access token for "alice", signed with the access secret of
`spec_config` (issued at 0, expiring at 900). -/
def alice_access_token : TokenRepr :=
  .signed ⟨1, some "alice", some "Alice", some 1, 0, 900⟩ "access-secret-key" "HS256"

/-- Refresh token for "alice", signed with the refresh secret of
`spec_config` (expiring at 180000). -/
def alice_refresh_token : TokenRepr :=
  .signed ⟨1, some "alice", some "Alice", some 1, 0, 180000⟩ "refresh-secret-key" "HS256"

/-- Claim C1.  The claim states that the middleware exempts the
refresh-token route from its access-token check.  Evaluating
`dispatch_middlewares` at the failing input shows the opposite: the `pass`
branch only skips the public early return and falls through into the
access-token validation, so a refresh request carrying a perfectly good
refresh-token cookie but no access token is rejected with
`NotAuthorization`, and one carrying an expired access token is rejected
with `ExpireJwtToken` (at time 1000 the access token that expired at 900 is
past due while the refresh token is still live). -/
theorem middleware_refresh_route_requires_access_token :
    dispatch_middlewares spec_config 1000 []
        ⟨"/api/v1/auth/refresh_token", none, none, some alice_refresh_token⟩
      = DispatchResult.rejected NotAuthorization
    ∧ dispatch_middlewares spec_config 1000 []
          ⟨"/api/v1/auth/refresh_token", none, some alice_access_token,
            some alice_refresh_token⟩
        = DispatchResult.rejected ExpireJwtToken := by
  constructor <;> rfl

/-- Claim C2.  The claim states that a valid access token whose `login_id`
has no session-cache entry is rejected as `NotFoundUserEx`.  Evaluating the
middleware at that input refutes it: `request.state.user =
ast.literal_eval(user_info)` runs before the `if not user_info` test, so the
cache miss raises `ValueError` inside `literal_eval(None)`, which
`exception_handler` wraps as a bare `APIException` (500, code "0000") — the
`NotFoundUserEx` branch on the very next source line is unreachable.  The
final conjunct shows the complementary hit case still authenticates, so the
failure is precisely the cache miss. -/
theorem middleware_cache_miss_generic_error :
    dispatch_middlewares spec_config 100 []
        ⟨"/api/v1/user/profile", some alice_access_token, none, none⟩
      = DispatchResult.rejected APIException
    ∧ APIException ≠ NotFoundUserEx
    ∧ dispatch_middlewares spec_config 100
          [("cache_user_info_alice", cache_value_of alice_entity, 3600)]
          ⟨"/api/v1/user/profile", some alice_access_token, none, none⟩
        = DispatchResult.authenticated (cache_value_of alice_entity) := by
  refine ⟨rfl, by decide, rfl⟩

/-- Claim C3.  The claim states that a malformed or wrong-secret access
token on a protected route is rejected as `InvalidToken` with status 401.
Evaluating the middleware refutes it: `jwt.decode` raises a `jose`
`JWTError` in both cases, the inner `except` catches only
`ExpiredSignatureError`, and `exception_handler` wraps the unclassified
`JWTError` as a bare `APIException` — status 500, code "0000", not the 401
`InvalidJwtToken` of errors.py (which no src code ever raises). -/
theorem middleware_malformed_token_generic_error :
    dispatch_middlewares spec_config 100 []
        ⟨"/api/v1/user/profile", some (.garbage "not-a-jwt"), none, none⟩
      = DispatchResult.rejected APIException
    ∧ dispatch_middlewares spec_config 100 []
          ⟨"/api/v1/user/profile", some alice_refresh_token, none, none⟩
        = DispatchResult.rejected APIException
    ∧ APIException ≠ InvalidJwtToken
    ∧ APIException.status_code ≠ 401 := by
  refine ⟨rfl, rfl, by decide, by decide⟩

/-- Claim C5.  The claim states that every session-cache write and read of
the core uses the key `cache_user_info_<login_id>`.  The live writers
(`CacheService.save_user_cache`, and `update_user_cache` through it) and
both readers do; but the legacy login-path writer
`UserUseCase.set_user_in_redis` still stores under the typo key
`cahce_user_info_<login_id>`, so an entry it writes is never found by the
middleware lookup for the same login_id — while an entry written by
`CacheService.save_user_cache` is. -/
theorem session_cache_key_divergence :
    UserUseCase.set_user_in_redis spec_config [] alice_entity
      = [("cahce_user_info_alice", cache_value_of alice_entity, 3600)]
    ∧ "cahce_user_info_alice" ≠ "cache_user_info_alice"
    ∧ get_user_cache (UserUseCase.set_user_in_redis spec_config [] alice_entity) "alice"
      = none
    ∧ get_user_cache (CacheService.save_user_cache spec_config [] alice_entity) "alice"
      = some (cache_value_of alice_entity) := by
  refine ⟨rfl, by decide, rfl, rfl⟩

/-- Row committed by a concurrent registration of "alice" between the
pre-checks and the insert. -/
def race_record : UserRecord := ⟨1, "alice", "Alice", "stored-hash", "a@x.com", 1⟩

/-- Registration command for "alice". -/
def race_command : RegisterUserCommand := ⟨"alice", "Alice", "Passw0rd!", "a@x.com", 1⟩

/-- Claim C4, counterexample.  Both pre-checks pass against the empty table,
the insert hits the uniqueness violation against the table where the
concurrent registration has already committed, and the outcome is
`InternalQuerryEx` — not the `DuplicateUserEx` the claim requires
(`Repository.save` wraps every exception in `InternalQuerryEx` and
`RegisterUserUseCase.execute` never converts it). -/
theorem register_insert_race_not_duplicate_user :
    RegisterUserUseCase.execute (fun p => "bcrypt:" ++ p) [] [race_record] 2 race_command
      = RegisterOutcome.internalQueryError
    ∧ RegisterOutcome.internalQueryError ≠ RegisterOutcome.duplicateUser "alice" := by
  refine ⟨rfl, by decide⟩

/-- Claim C4, amended: when both existence pre-checks pass but the insert
runs against a table that meanwhile violates uniqueness of `login_id` or
`email`, `RegisterUserUseCase.execute` fails with `InternalQuerryEx` (the
generic 500 internal-query error), not with `DuplicateUserEx`. -/
theorem register_insert_race_internal_query_error
    (hash : String → String) (db_at_check db_at_insert : UserTable)
    (next_user_id : Int) (command : RegisterUserCommand)
    (h_lid : Repository.exists_by_login_id db_at_check command.login_id = false)
    (h_email : Repository.exists_by_email db_at_check command.email = false)
    (h_race : Repository.exists_by_login_id db_at_insert command.login_id = true
        ∨ Repository.exists_by_email db_at_insert command.email = true) :
    RegisterUserUseCase.execute hash db_at_check db_at_insert next_user_id command
      = RegisterOutcome.internalQueryError := by
  unfold RegisterUserUseCase.execute Repository.save
  rcases h_race with h | h <;> simp [h_lid, h_email, h]

/-- Witness for the amended claim C4 at a concrete input. -/
theorem register_insert_race_internal_query_error_witness :
    RegisterUserUseCase.execute (fun p => p) [] [race_record] 7 race_command
      = RegisterOutcome.internalQueryError :=
  register_insert_race_internal_query_error (fun p => p) [] [race_record] 7 race_command
    rfl rfl (Or.inl rfl)

/-- Claim C6.  Anti-enumeration: a login for a `login_id` with no stored
record and a login for an existing record whose password fails verification
raise the same error class, `NotFoundUserEx` — the two failure runs are
indistinguishable by error class. -/
theorem authenticate_anti_enumeration
    (find1 find2 : String → Option UserEntity)
    (verify1 verify2 : String → String → Option Bool)
    (lid1 pw1 lid2 pw2 : String) (u : UserEntity) (stored_hash : String)
    (h_missing : find1 lid1 = none)
    (h_found : find2 lid2 = some u)
    (h_pw : u.password = some stored_hash)
    (h_nonempty : stored_hash ≠ "")
    (h_mismatch : verify2 pw2 stored_hash = some false) :
    AuthService.authenticate find1 verify1 lid1 pw1 = AuthOutcome.notFoundUser
    ∧ AuthService.authenticate find2 verify2 lid2 pw2 = AuthOutcome.notFoundUser := by
  constructor
  · simp [AuthService.authenticate, h_missing]
  · simp [AuthService.authenticate, h_found, h_pw, h_nonempty, h_mismatch]

/-- Witness for claim C6: an unknown login id and a wrong password against
the stored "alice" row produce the same `NotFoundUserEx` class. -/
theorem authenticate_anti_enumeration_witness :
    AuthService.authenticate (fun _ => none) (fun _ _ => some true) "ghost" "pw"
      = AuthOutcome.notFoundUser
    ∧ AuthService.authenticate (fun _ => some alice_with_password)
        (fun _ _ => some false) "alice" "WrongPass" = AuthOutcome.notFoundUser :=
  authenticate_anti_enumeration (fun _ => none) (fun _ => some alice_with_password)
    (fun _ _ => some true) (fun _ _ => some false) "ghost" "pw" "alice" "WrongPass"
    alice_with_password "bcrypt-hash" rfl rfl rfl (by decide) rfl

/-- Claim C7.  Whenever `AuthService.authenticate` succeeds, the returned
password field of the returned entity has been cleared to `None`. -/
theorem authenticate_success_clears_password
    (find_by_login_id : String → Option UserEntity)
    (verify : String → String → Option Bool) (lid pw : String) (u : UserEntity)
    (h : AuthService.authenticate find_by_login_id verify lid pw = AuthOutcome.ok u) :
    u.password = none := by
  unfold AuthService.authenticate at h
  split at h
  · simp at h
  · split at h
    · simp at h
    · split at h
      · simp at h
      · split at h
        · simp at h
        · split at h
          · dsimp only at h
            split at h
            · simp at h
            · simp only [AuthOutcome.ok.injEq] at h
              subst h
              rfl
          · simp at h

/-- Witness for claim C7: a successful authentication run returns the
cleared entity. -/
theorem authenticate_success_clears_password_witness :
    ({ alice_with_password with password := none } : UserEntity).password = none :=
  authenticate_success_clears_password (fun _ => some alice_with_password)
    (fun _ _ => some true) "alice" "Passw0rd!"
    { alice_with_password with password := none } rfl

/-- Claim C8.  `TokenService.get_token` signs the access token and the
refresh token over identical user claims `{user_id, login_id, user_name,
user_type}` with the same `iat`; the two differ only in signing secret
(`JWT_ACCESS_SECRET_KEY` vs `JWT_REFRESH_SECRET_KEY`) and expiry minutes,
under the same `JWT_ALGORITHM`; the entity comes back with `token_type =
"bearer"` and the coerced integer `user_id`.  Under the spec configuration
the expiries are 15 and 3000 minutes and the secrets differ. -/
theorem get_token_identical_claims (cfg : Config) (now : Nat) (u : UserEntity)
    (uid ut : Int) (h_id : u.user_id = some uid) (h_ut : u.user_type = some ut) :
    TokenService.get_token cfg now u
      = some { u with
          access_token := some (.signed
            ⟨uid, u.login_id, u.user_name, some ut, now,
              now + cfg.JWT_ACCESS_TOKEN_EXPIRE_MINUTES * 60⟩
            cfg.JWT_ACCESS_SECRET_KEY cfg.JWT_ALGORITHM),
          refresh_token := some (.signed
            ⟨uid, u.login_id, u.user_name, some ut, now,
              now + cfg.JWT_REFRESH_TOKEN_EXPIRE_MINUTES * 60⟩
            cfg.JWT_REFRESH_SECRET_KEY cfg.JWT_ALGORITHM),
          token_type := some "bearer",
          user_id := some uid }
    ∧ spec_config.JWT_ACCESS_TOKEN_EXPIRE_MINUTES = 15
    ∧ spec_config.JWT_REFRESH_TOKEN_EXPIRE_MINUTES = 3000
    ∧ spec_config.JWT_ACCESS_SECRET_KEY ≠ spec_config.JWT_REFRESH_SECRET_KEY := by
  refine ⟨?_, rfl, rfl, by decide⟩
  simp [TokenService.get_token, h_id, h_ut, create_access_token]

/-- Witness for claim C8: the token pair issued to "alice" at time 0 under
the spec configuration. -/
theorem get_token_identical_claims_witness :
    TokenService.get_token spec_config 0 alice_entity
      = some { alice_entity with
          access_token := some (.signed ⟨1, some "alice", some "Alice", some 1, 0, 900⟩
            "access-secret-key" "HS256"),
          refresh_token := some (.signed ⟨1, some "alice", some "Alice", some 1, 0, 180000⟩
            "refresh-secret-key" "HS256"),
          token_type := some "bearer",
          user_id := some 1 } := by
  have h := (get_token_identical_claims spec_config 0 alice_entity 1 1 rfl rfl).1
  simpa using h

/-- Filtering out a key twice equals filtering it once. -/
theorem filter_ne_idem (st : RedisState) (key : String) :
    (st.filter (fun e => e.1 ≠ key)).filter (fun e => e.1 ≠ key)
      = st.filter (fun e => e.1 ≠ key) := by
  induction st with
  | nil => rfl
  | cons e t ih => by_cases h : e.1 = key <;> simp [List.filter_cons, h, ih]

/-- Nothing with the key survives filtering the key out. -/
theorem filter_ne_then_eq_nil (st : RedisState) (key : String) :
    (st.filter (fun e => e.1 ≠ key)).filter (fun e => e.1 = key) = [] := by
  induction st with
  | nil => rfl
  | cons e t ih => by_cases h : e.1 = key <;> simp [List.filter_cons, h, ih]

/-- Claim C9.  Logout is idempotent at the public interface: whatever the
cache held, `LogoutUseCase.execute` reports `success = True`, a second run
also reports `success = True`, the second run leaves the cache state of the
first run unchanged, and the delete underlying the second run returns
`False`. -/
theorem logout_idempotent_success (st : RedisState) (login_id : String) :
    (LogoutUseCase.execute st login_id).2.success = true
    ∧ (LogoutUseCase.execute (LogoutUseCase.execute st login_id).1 login_id).2.success
      = true
    ∧ (LogoutUseCase.execute (LogoutUseCase.execute st login_id).1 login_id).1
      = (LogoutUseCase.execute st login_id).1
    ∧ (CacheService.delete_user_cache (LogoutUseCase.execute st login_id).1 login_id).2
      = false := by
  refine ⟨rfl, rfl, ?_, ?_⟩
  · simp [LogoutUseCase.execute, CacheService.delete_user_cache, redis_delete,
      filter_ne_idem]
  · simp [LogoutUseCase.execute, CacheService.delete_user_cache, redis_delete,
      filter_ne_then_eq_nil]

/-- Claim C10.  `CacheService.update_user_cache` is extensionally equal to
`CacheService.save_user_cache`: same key `cache_user_info_<login_id>`, same
serialized user dictionary, same `REDIS_EXPIRE_TIME` TTL — a refresh
overwrites the login-time entry rather than creating a distinct one. -/
theorem update_user_cache_eq_save_user_cache (cfg : Config) (st : RedisState)
    (user : UserEntity) :
    CacheService.update_user_cache cfg st user = CacheService.save_user_cache cfg st user
    ∧ CacheService.update_user_cache cfg st user
      = redis_set st ("cache_user_info_" ++ pyStr user.login_id) (cache_value_of user)
          cfg.REDIS_EXPIRE_TIME :=
  ⟨rfl, rfl⟩
